/-
Verification of the kanban-app client board logic.

Shallow embedding of:
  * the data model (src/types/kanban.ts)
  * the fetch/denormalize step `columnsWithCards` of `fetchBoard` (hooks/useBoard.ts)
  * the board filter `filteredColumns` (components/Board/Board.tsx)
  * the WIP-limit UI logic (components/Column/Column.tsx)
  * the mutating operations of `useBoard` / `useBoards` (moveCard, toggleSubtask,
    addColumn, addCard, createBoard, ...), including their error handling and
    whether each re-fetches the board on success.

Machine integers are modelled as Int (JS numbers used as integers here),
strings as String, nullable fields as Option, and each operation's effect as a
pure function on explicit state.
-/
import Mathlib

namespace Kanban

/-! ### String helpers: JS `String.prototype.includes` on lower-cased text -/

/-- Does `hay` start with `needle` (on char lists)? -/
def charsStartWith : List Char → List Char → Bool
  | _, [] => true
  | [], _ :: _ => false
  | a :: as, b :: bs => a == b && charsStartWith as bs

/-- Does `hay` contain `needle` as a contiguous substring (on char lists)? -/
def charsContain (needle : List Char) : List Char → Bool
  | [] => charsStartWith [] needle
  | h :: t => charsStartWith (h :: t) needle || charsContain needle t

/-- JS `hay.includes(needle)`. -/
def strIncludes (hay needle : String) : Bool :=
  charsContain needle.data hay.data

/-- JS `s.toLowerCase()`: character-wise lower-casing.  (Core's
`String.toLower` is implemented with a non-reducing auxiliary, so the
embedding lower-cases the character list directly.) -/
def strToLower (s : String) : String :=
  ⟨s.data.map Char.toLower⟩

/-! ### Data model (src/types/kanban.ts) -/

inductive Priority
  | low
  | medium
  | high
  | critical
deriving DecidableEq, Repr

structure Subtask where
  id : String
  card_id : String
  title : String
  is_completed : Bool
  position : Int
deriving DecidableEq, Repr

structure Card where
  id : String
  column_id : String
  title : String
  description : Option String
  position : Int
  due_date : Option String
  priority : Priority
  assigned_to : Option String
deriving DecidableEq, Repr

structure Column where
  id : String
  board_id : String
  title : String
  position : Int
  wip_limit : Option Int
deriving DecidableEq, Repr

structure Label where
  id : String
  board_id : String
  text : String
  color : String
deriving DecidableEq, Repr

structure CardLabel where
  card_id : String
  label_id : String
deriving DecidableEq, Repr

structure Attachment where
  id : String
  card_id : String
  file_name : String
  storage_path : String
deriving DecidableEq, Repr

structure Comment where
  id : String
  card_id : String
  content : String
deriving DecidableEq, Repr

structure Activity where
  id : String
  card_id : Option String
  board_id : String
  action_type : String
deriving DecidableEq, Repr

/-- `CardWithLabels`: a card enriched with its joined entities. -/
structure CardWithLabels where
  card : Card
  labels : List Label
  subtasks : List Subtask
  attachments : List Attachment
  comments : List Comment
  activities : List Activity
deriving DecidableEq, Repr

/-- `ColumnWithCards`: a column together with its (enriched) cards. -/
structure ColumnWithCards where
  column : Column
  cards : List CardWithLabels
deriving DecidableEq, Repr

/-! ### fetchBoard composition step (useBoard.ts, `columnsWithCards`)

The DB queries return `columnsData` (ordered by position), `cardsData`
(ordered by position), and the per-card child rows; the hook then composes
the nested view model exactly as below. -/

/-- The inner `.map` callback enriching one card with its joined rows. -/
def enrichCard (subtasksData : List Subtask) (labelsData : List Label)
    (cardLabelsData : List CardLabel) (attachmentsData : List Attachment)
    (commentsData : List Comment) (activitiesData : List Activity)
    (card : Card) : CardWithLabels :=
  let cardLabelIds :=
    (cardLabelsData.filter (fun cl => cl.card_id == card.id)).map
      (fun cl => cl.label_id)
  { card := card
    labels := labelsData.filter (fun l => cardLabelIds.contains l.id)
    subtasks := subtasksData.filter (fun s => s.card_id == card.id)
    attachments := attachmentsData.filter (fun a => a.card_id == card.id)
    comments := commentsData.filter (fun c => c.card_id == card.id)
    activities := activitiesData.filter (fun a => a.card_id == some card.id) }

/-- The outer `.map` callback pairing one column with its filtered cards. -/
def enrichColumn (cardsData : List Card) (subtasksData : List Subtask)
    (labelsData : List Label) (cardLabelsData : List CardLabel)
    (attachmentsData : List Attachment) (commentsData : List Comment)
    (activitiesData : List Activity) (column : Column) : ColumnWithCards :=
  { column := column
    cards := (cardsData.filter (fun card => card.column_id == column.id)).map
      (enrichCard subtasksData labelsData cardLabelsData attachmentsData
        commentsData activitiesData) }

def columnsWithCards (columnsData : List Column) (cardsData : List Card)
    (subtasksData : List Subtask) (labelsData : List Label)
    (cardLabelsData : List CardLabel) (attachmentsData : List Attachment)
    (commentsData : List Comment) (activitiesData : List Activity) :
    List ColumnWithCards :=
  columnsData.map (enrichColumn cardsData subtasksData labelsData cardLabelsData
    attachmentsData commentsData activitiesData)

/-! ### Board filtering (components/Board/Board.tsx, `filteredColumns`)

Dates: the component parses `due_date` strings with `new Date` and truncates
to midnight; we abstract that as a day-valuation `parseDay : String → Int`
and `today : Int` (day numbers), which is all the comparisons use. -/

inductive DateFilter
  | all
  | today
  | week
  | overdue
  | noDate
deriving DecidableEq, Repr

structure FilterState where
  searchQuery : String
  labels : List String
  priorities : List Priority
  dateFilter : DateFilter
deriving DecidableEq, Repr

def DEFAULT_FILTER_STATE : FilterState :=
  { searchQuery := "", labels := [], priorities := [], dateFilter := DateFilter.all }

/-- Search clause of the filter callback: pass unless a non-empty query
matches neither title nor description (lower-cased substring test). -/
def searchPred (fs : FilterState) (card : CardWithLabels) : Bool :=
  if fs.searchQuery ≠ "" then
    let query := strToLower fs.searchQuery
    let matchTitle := strIncludes (strToLower card.card.title) query
    let matchDesc :=
      match card.card.description with
      | some d => strIncludes (strToLower d) query
      | none => false
    matchTitle || matchDesc
  else true

/-- Label clause: if labels are selected, some selected id must be among the
card's label ids. -/
def labelPred (fs : FilterState) (card : CardWithLabels) : Bool :=
  if fs.labels ≠ [] then
    fs.labels.any (fun id => (card.labels.map (fun l => l.id)).contains id)
  else true

/-- Priority clause: if priorities are selected, the card's priority must be
among them. -/
def prioPred (fs : FilterState) (card : CardWithLabels) : Bool :=
  if fs.priorities ≠ [] then fs.priorities.contains card.card.priority
  else true

/-- Date clause: 'all' passes; 'no-date' requires no due date; the rest
require a due date whose day-truncated value compares against today. -/
def datePred (parseDay : String → Int) (today : Int) (fs : FilterState)
    (card : CardWithLabels) : Bool :=
  match fs.dateFilter with
  | DateFilter.all => true
  | DateFilter.noDate =>
    match card.card.due_date with
    | some _ => false
    | none => true
  | df =>
    match card.card.due_date with
    | none => false
    | some dd =>
      let dueDateDay := parseDay dd
      match df with
      | DateFilter.overdue => !(dueDateDay ≥ today)
      | DateFilter.today => dueDateDay == today
      | DateFilter.week => !(dueDateDay < today || dueDateDay > today + 7)
      | _ => true

/-- The card predicate of `filteredColumns`: the source callback's chain of
early `return false`s, i.e. the conjunction of the four clauses. -/
def matchesFilter (parseDay : String → Int) (today : Int) (fs : FilterState)
    (card : CardWithLabels) : Bool :=
  searchPred fs card && labelPred fs card && prioPred fs card
    && datePred parseDay today fs card

/-- `filteredColumns` of Board.tsx: identity short-circuit on the default
filter state, otherwise per-column card filtering. -/
def filteredColumns (parseDay : String → Int) (today : Int) (fs : FilterState)
    (columns : List ColumnWithCards) : List ColumnWithCards :=
  if fs.searchQuery == "" && fs.labels.isEmpty && fs.priorities.isEmpty
      && fs.dateFilter == DateFilter.all then
    columns
  else
    columns.map (fun col =>
      { col with cards := col.cards.filter (matchesFilter parseDay today fs) })

/-! ### WIP limit logic (components/Column/Column.tsx) -/

/-- `isOverLimit = wipLimit !== null && cardCount >= wipLimit`. -/
def isOverLimit (cardCount : Nat) (wipLimit : Option Int) : Bool :=
  match wipLimit with
  | none => false
  | some l => (cardCount : Int) ≥ l

/-- The add-card button's `disabled={isOverLimit}` prop. -/
def addCardButtonDisabled (cw : ColumnWithCards) : Bool :=
  isOverLimit cw.cards.length cw.column.wip_limit

/-! ### moveCard (useBoard.ts): a single DB row update on `cards` -/

/-- Effect of `moveCard` on the cards table: set the moved card's
`column_id` and `position`; the hook then refetches and returns true. -/
def moveCard (dbCards : List Card) (cardId targetColumnId : String)
    (newPosition : Int) : List Card :=
  dbCards.map (fun c =>
    if c.id == cardId then
      { c with column_id := targetColumnId, position := newPosition }
    else c)

/-! ### toggleSubtask and its completion automation (useBoard.ts) -/

/-- The nested loop of `toggleSubtask` locating, in the local view model, the
card owning the toggled subtask. -/
def findCardOfSubtask (columns : List ColumnWithCards) (subtaskId : String) :
    Option CardWithLabels :=
  columns.findSome? (fun col =>
    col.cards.find? (fun card => card.subtasks.any (fun s => s.id == subtaskId)))

/-- Title heuristic for the automation's target column. -/
def isDoneTitle (title : String) : Bool :=
  strIncludes (strToLower title) "done" || strIncludes (strToLower title) "tamam"
    || strIncludes (strToLower title) "biten"

/-- `columns.find(c => c.title.toLowerCase().includes('done') || ...)`. -/
def findDoneColumn (columns : List ColumnWithCards) : Option ColumnWithCards :=
  columns.find? (fun c => isDoneTitle c.column.title)

/-- `columns.find(c => c.cards.some(card => card.id === cardId))`. -/
def findCurrentColumn (columns : List ColumnWithCards) (cardId : String) :
    Option ColumnWithCards :=
  columns.find? (fun c => c.cards.any (fun card => card.card.id == cardId))

/-- Automation branch of `toggleSubtask`: returns the cards table after any
automatic move together with the automation message.  Mirrors the source's
guards: only when completing; card found in local state; its subtask list
non-empty; all other subtasks completed; a done-heuristic column found; the
card's current column found; and the two differ. -/
def toggleSubtaskCore (columns : List ColumnWithCards) (dbCards : List Card)
    (subtaskId : String) (isCompleted : Bool) : List Card × Option String :=
  if isCompleted then
    match findCardOfSubtask columns subtaskId with
    | none => (dbCards, none)
    | some card =>
      if card.subtasks.length > 0 then
        if (card.subtasks.filter (fun s => !(s.id == subtaskId))).all
            (fun s => s.is_completed) then
          match findDoneColumn columns, findCurrentColumn columns card.card.id with
          | some doneColumn, some currentColumn =>
            if !(doneColumn.column.id == currentColumn.column.id) then
              (moveCard dbCards card.card.id doneColumn.column.id 0,
               some ("Tüm görevler bitti! Kart \"" ++ doneColumn.column.title
                 ++ "\" sütununa taşındı. 🚀"))
            else (dbCards, none)
          | _, _ => (dbCards, none)
        else (dbCards, none)
      else (dbCards, none)
  else (dbCards, none)

structure ToggleResult where
  cards : List Card
  subtasks : List Subtask
  automationMessage : Option String
  refetched : Bool
deriving DecidableEq, Repr

/-- `toggleSubtask`: update the subtask row, run the automation, and refetch.
Every return path of the source refetches the board (either the trailing
`fetchBoard()` or the `fetchBoard()` inside `moveCard`), hence
`refetched := true` unconditionally. -/
def toggleSubtask (columns : List ColumnWithCards) (dbCards : List Card)
    (dbSubtasks : List Subtask) (subtaskId : String) (isCompleted : Bool) :
    ToggleResult :=
  let dbSubtasks2 := dbSubtasks.map (fun s =>
    if s.id == subtaskId then { s with is_completed := isCompleted } else s)
  let core := toggleSubtaskCore columns dbCards subtaskId isCompleted
  { cards := core.1, subtasks := dbSubtasks2, automationMessage := core.2,
    refetched := true }

/-- `handleToggleSubtask` in Board.tsx: fire confetti and a success toast
exactly when the returned `automationMessage` is truthy. -/
def celebrates (res : ToggleResult) : Bool :=
  match res.automationMessage with
  | some m => !(m == "")
  | none => false

/-! ### New positions for columns and cards (useBoard.ts) -/

/-- `Math.max(...)` over a list, as used on a non-empty spread. -/
def jsMax : List Int → Int
  | [] => 0
  | h :: t => t.foldl max h

/-- Position computed by `addColumn` for the new column. -/
def addColumnPosition (columns : List ColumnWithCards) : Int :=
  let maxPosition :=
    if columns.length > 0 then jsMax (columns.map (fun c => c.column.position))
    else -1
  maxPosition + 1

/-- Position computed by `addCard` for the new card of column `columnId`. -/
def addCardPosition (columns : List ColumnWithCards) (columnId : String) : Int :=
  let column := columns.find? (fun c => c.column.id == columnId)
  let maxPosition :=
    match column with
    | some col =>
      if col.cards.length > 0 then jsMax (col.cards.map (fun c => c.card.position))
      else -1
    | none => -1
  maxPosition + 1

/-! ### createBoard (useBoards.ts): default columns for a new board -/

structure NewColumnRow where
  board_id : String
  title : String
  position : Int
deriving DecidableEq, Repr

/-- The `defaultColumns` rows inserted by `createBoard` after a successful
board insert. -/
def createBoardDefaultColumns (newBoardId : String) : List NewColumnRow :=
  [ { board_id := newBoardId, title := "To Do", position := 0 },
    { board_id := newBoardId, title := "In Progress", position := 1 },
    { board_id := newBoardId, title := "Done", position := 2 } ]

/-! ### Operation outcomes (useBoard.ts)

Each data operation of the hook is an async function whose body is one
`try/catch`.  We model the external service by `dbError : Option String` —
`some m` meaning the first awaited service call rejects with an `Error`
whose message is `m` — and record, per operation: the message passed to
`setError` in the catch (if any), whether the catch logged to the console,
whether the operation re-threw, the JS value returned, and whether the body
invoked `fetchBoard`. -/

inductive RetVal
  | rnull
  | rfalse
  | rtrue
  | rdata
  | runit
  | robj
deriving DecidableEq, Repr

structure OpOutcome where
  errorMsg : Option String
  consoleLogged : Bool
  threw : Bool
  ret : RetVal
  refetch : Bool
deriving DecidableEq, Repr

inductive BoardOp
  | addColumn
  | updateColumn
  | deleteColumn
  | addCard
  | updateCard
  | deleteCard
  | moveCard
  | reorderColumns
  | addComment
  | deleteComment
  | uploadAttachment
  | deleteAttachment
  | toggleSubtask
  | assignCard
deriving DecidableEq, Repr

/-- `addColumn`: insert, then `await fetchBoard()`, return the row; on error
set message, log, return null. -/
def addColumnOp : Option String → OpOutcome
  | some m => { errorMsg := some m, consoleLogged := true, threw := false,
                ret := RetVal.rnull, refetch := false }
  | none => { errorMsg := none, consoleLogged := false, threw := false,
              ret := RetVal.rdata, refetch := true }

/-- `updateColumn`: update, return true; no refetch; on error return false. -/
def updateColumnOp : Option String → OpOutcome
  | some m => { errorMsg := some m, consoleLogged := true, threw := false,
                ret := RetVal.rfalse, refetch := false }
  | none => { errorMsg := none, consoleLogged := false, threw := false,
              ret := RetVal.rtrue, refetch := false }

/-- `deleteColumn`: delete, return true; no refetch; on error return false. -/
def deleteColumnOp : Option String → OpOutcome
  | some m => { errorMsg := some m, consoleLogged := true, threw := false,
                ret := RetVal.rfalse, refetch := false }
  | none => { errorMsg := none, consoleLogged := false, threw := false,
              ret := RetVal.rtrue, refetch := false }

/-- `addCard`: insert + logActivity, return the row; no refetch; on error
return null. -/
def addCardOp : Option String → OpOutcome
  | some m => { errorMsg := some m, consoleLogged := true, threw := false,
                ret := RetVal.rnull, refetch := false }
  | none => { errorMsg := none, consoleLogged := false, threw := false,
              ret := RetVal.rdata, refetch := false }

/-- `updateCard`: update + logActivity, return true; no refetch. -/
def updateCardOp : Option String → OpOutcome
  | some m => { errorMsg := some m, consoleLogged := true, threw := false,
                ret := RetVal.rfalse, refetch := false }
  | none => { errorMsg := none, consoleLogged := false, threw := false,
              ret := RetVal.rtrue, refetch := false }

/-- `deleteCard`: delete, return true; no refetch. -/
def deleteCardOp : Option String → OpOutcome
  | some m => { errorMsg := some m, consoleLogged := true, threw := false,
                ret := RetVal.rfalse, refetch := false }
  | none => { errorMsg := none, consoleLogged := false, threw := false,
              ret := RetVal.rtrue, refetch := false }

/-- `moveCard`: update + logActivity + `await fetchBoard()`, return true. -/
def moveCardOp : Option String → OpOutcome
  | some m => { errorMsg := some m, consoleLogged := true, threw := false,
                ret := RetVal.rfalse, refetch := false }
  | none => { errorMsg := none, consoleLogged := false, threw := false,
              ret := RetVal.rtrue, refetch := true }

/-- `reorderColumns`: update, return true; no refetch. -/
def reorderColumnsOp : Option String → OpOutcome
  | some m => { errorMsg := some m, consoleLogged := true, threw := false,
                ret := RetVal.rfalse, refetch := false }
  | none => { errorMsg := none, consoleLogged := false, threw := false,
              ret := RetVal.rtrue, refetch := false }

/-- `addComment`: insert + logActivity + `fetchBoard()`; on error set
message, log, and RE-THROW ("Re-throw to allow caller to handle"). -/
def addCommentOp : Option String → OpOutcome
  | some m => { errorMsg := some m, consoleLogged := true, threw := true,
                ret := RetVal.runit, refetch := false }
  | none => { errorMsg := none, consoleLogged := false, threw := false,
              ret := RetVal.runit, refetch := true }

/-- `deleteComment`: delete + `fetchBoard()`; on error set message, log, and
RE-THROW. -/
def deleteCommentOp : Option String → OpOutcome
  | some m => { errorMsg := some m, consoleLogged := true, threw := true,
                ret := RetVal.runit, refetch := false }
  | none => { errorMsg := none, consoleLogged := false, threw := false,
              ret := RetVal.runit, refetch := true }

/-- `uploadAttachment`: storage upload + insert + logActivity +
`fetchBoard()`, return true; on error return false. -/
def uploadAttachmentOp : Option String → OpOutcome
  | some m => { errorMsg := some m, consoleLogged := true, threw := false,
                ret := RetVal.rfalse, refetch := false }
  | none => { errorMsg := none, consoleLogged := false, threw := false,
              ret := RetVal.rtrue, refetch := true }

/-- `deleteAttachment`: storage remove + delete + logActivity, return true;
no refetch; on error return false. -/
def deleteAttachmentOp : Option String → OpOutcome
  | some m => { errorMsg := some m, consoleLogged := true, threw := false,
                ret := RetVal.rfalse, refetch := false }
  | none => { errorMsg := none, consoleLogged := false, threw := false,
              ret := RetVal.rtrue, refetch := false }

/-- `toggleSubtask`: update + automation, every success path refetches
(directly or through `moveCard`); returns an object (`{}` or
`{automationMessage}`); on error set message, log, and return `{}`. -/
def toggleSubtaskOp : Option String → OpOutcome
  | some m => { errorMsg := some m, consoleLogged := true, threw := false,
                ret := RetVal.robj, refetch := false }
  | none => { errorMsg := none, consoleLogged := false, threw := false,
              ret := RetVal.robj, refetch := true }

/-- `assignCard`: update + logActivity, return true; no refetch. -/
def assignCardOp : Option String → OpOutcome
  | some m => { errorMsg := some m, consoleLogged := true, threw := false,
                ret := RetVal.rfalse, refetch := false }
  | none => { errorMsg := none, consoleLogged := false, threw := false,
              ret := RetVal.rtrue, refetch := false }

def runOp : BoardOp → Option String → OpOutcome
  | BoardOp.addColumn => addColumnOp
  | BoardOp.updateColumn => updateColumnOp
  | BoardOp.deleteColumn => deleteColumnOp
  | BoardOp.addCard => addCardOp
  | BoardOp.updateCard => updateCardOp
  | BoardOp.deleteCard => deleteCardOp
  | BoardOp.moveCard => moveCardOp
  | BoardOp.reorderColumns => reorderColumnsOp
  | BoardOp.addComment => addCommentOp
  | BoardOp.deleteComment => deleteCommentOp
  | BoardOp.uploadAttachment => uploadAttachmentOp
  | BoardOp.deleteAttachment => deleteAttachmentOp
  | BoardOp.toggleSubtask => toggleSubtaskOp
  | BoardOp.assignCard => assignCardOp

/-! ## Helper lemmas -/

@[simp]
lemma enrichCard_card (subs : List Subtask) (labs : List Label)
    (cls : List CardLabel) (atts : List Attachment) (comms : List Comment)
    (acts : List Activity) (card : Card) :
    (enrichCard subs labs cls atts comms acts card).card = card := rfl

@[simp]
lemma enrichColumn_column (cards : List Card) (subs : List Subtask)
    (labs : List Label) (cls : List CardLabel) (atts : List Attachment)
    (comms : List Comment) (acts : List Activity) (col : Column) :
    (enrichColumn cards subs labs cls atts comms acts col).column = col := rfl

lemma enrichColumn_cards (cards : List Card) (subs : List Subtask)
    (labs : List Label) (cls : List CardLabel) (atts : List Attachment)
    (comms : List Comment) (acts : List Activity) (col : Column) :
    (enrichColumn cards subs labs cls atts comms acts col).cards
      = (cards.filter (fun card => card.column_id == col.id)).map
          (enrichCard subs labs cls atts comms acts) := rfl

/-- `IsMaxOf m l`: `m` is the maximum of the list `l`. -/
def IsMaxOf (m : Int) (l : List Int) : Prop :=
  m ∈ l ∧ ∀ x ∈ l, x ≤ m

lemma foldl_max_spec (t : List Int) :
    ∀ a : Int, (t.foldl max a = a ∨ t.foldl max a ∈ t) ∧
      a ≤ t.foldl max a ∧ ∀ x ∈ t, x ≤ t.foldl max a := by
  induction t with
  | nil => exact fun a => ⟨Or.inl rfl, le_refl a, by simp⟩
  | cons h t ih =>
    intro a
    obtain ⟨hmem, hle, hub⟩ := ih (max a h)
    have hfold : (h :: t).foldl max a = t.foldl max (max a h) := rfl
    refine ⟨?_, ?_, ?_⟩
    · rcases hmem with hm | hm
      · rcases max_choice a h with hc | hc
        · exact Or.inl (by rw [hfold, hm, hc])
        · exact Or.inr (by rw [hfold, hm, hc]; exact List.mem_cons_self h t)
      · exact Or.inr (List.mem_cons_of_mem h hm)
    · rw [hfold]
      exact le_trans (le_max_left a h) hle
    · intro x hx
      rw [hfold]
      rcases List.mem_cons.mp hx with rfl | hx
      · exact le_trans (le_max_right a x) hle
      · exact hub x hx

lemma jsMax_isMax (h : Int) (t : List Int) : IsMaxOf (jsMax (h :: t)) (h :: t) := by
  obtain ⟨hmem, hle, hub⟩ := foldl_max_spec t h
  refine ⟨?_, ?_⟩
  · rcases hmem with hm | hm
    · rw [jsMax, hm]; exact List.mem_cons_self h t
    · exact List.mem_cons_of_mem h hm
  · intro x hx
    rcases List.mem_cons.mp hx with rfl | hx
    · exact hle
    · exact hub x hx

lemma isMaxOf_unique {m m' : Int} {l : List Int}
    (h1 : IsMaxOf m l) (h2 : IsMaxOf m' l) : m = m' :=
  le_antisymm (h2.2 m h1.1) (h1.2 m' h2.1)

lemma jsMax_eq_of_isMax {m : Int} {l : List Int} (h : IsMaxOf m l) :
    jsMax l = m := by
  cases l with
  | nil => exact absurd h.1 (List.not_mem_nil m)
  | cons a t => exact isMaxOf_unique (jsMax_isMax a t) h

/-- In a list whose `k`-keys are pairwise distinct, the number of elements
whose key equals the key of a member `x` and that satisfy `p` is `1` or `0`
according to `p x`. -/
lemma countP_keyOrient {α : Type} (l : List α) (k : α → String) (p : α → Bool)
    (hnd : l.Pairwise (fun a b => k a ≠ k b)) (x : α) (hx : x ∈ l) :
    l.countP (fun y => (k y == k x) && p y) = if p x then 1 else 0 := by
  induction l with
  | nil => exact absurd hx (List.not_mem_nil x)
  | cons h t ih =>
    obtain ⟨hhd, htl⟩ := List.pairwise_cons.mp hnd
    rcases List.mem_cons.mp hx with rfl | hxt
    · have h0 : t.countP (fun y => (k y == k x) && p y) = 0 := by
        refine List.countP_eq_zero.mpr ?_
        intro a ha
        simp only [Bool.and_eq_true, beq_iff_eq, not_and]
        intro hk
        exact absurd hk.symm (hhd a ha)
      rw [List.countP_cons, h0]
      simp
    · have hkh : k h ≠ k x := hhd x hxt
      have hph : ((k h == k x) && p h) = false := by simp [hkh]
      rw [List.countP_cons, ih htl hxt]
      simp [hph]

/-- In a list whose `k`-keys are pairwise distinct, exactly one element has
key `k x` for a member `x` (value-first `==` orientation). -/
lemma countP_valOrient {α : Type} (l : List α) (k : α → String)
    (hnd : l.Pairwise (fun a b => k a ≠ k b)) (x : α) (hx : x ∈ l) :
    l.countP (fun y => k x == k y) = 1 := by
  induction l with
  | nil => exact absurd hx (List.not_mem_nil x)
  | cons h t ih =>
    obtain ⟨hhd, htl⟩ := List.pairwise_cons.mp hnd
    rcases List.mem_cons.mp hx with rfl | hxt
    · have h0 : t.countP (fun y => k x == k y) = 0 := by
        refine List.countP_eq_zero.mpr ?_
        intro a ha
        simp only [beq_iff_eq]
        exact hhd a ha
      rw [List.countP_cons, h0]
      simp
    · have hkh : k h ≠ k x := hhd x hxt
      have hph : (k x == k h) = false := by
        simp only [beq_eq_false_iff_ne, ne_eq]
        exact fun hc => hkh hc.symm
      rw [List.countP_cons, ih htl hxt]
      simp [hph]

/-- Sum of a 0/1 indicator over a list equals `countP`. -/
lemma sum_map_indicator {α : Type} (l : List α) (p : α → Bool) :
    (l.map (fun a => if p a then 1 else 0)).sum = l.countP p := by
  induction l with
  | nil => rfl
  | cons h t ih =>
    rw [List.map_cons, List.sum_cons, List.countP_cons, ih]
    by_cases hp : p h = true
    · simp only [hp, if_true]
      omega
    · simp only [hp, if_false]
      omega

/-- `findSome?` over a cons. -/
lemma findSome?_cons_eq {α β : Type} (f : α → Option β) (a : α) (l : List α) :
    (a :: l).findSome? f =
      match f a with
      | some b => some b
      | none => l.findSome? f := by
  cases hfa : f a <;> simp [List.findSome?_cons, hfa]

/-- The card located by `findCardOfSubtask` really owns the subtask. -/
lemma findCardOfSubtask_any (columns : List ColumnWithCards) (sid : String)
    (card : CardWithLabels)
    (h : findCardOfSubtask columns sid = some card) :
    card.subtasks.any (fun s => s.id == sid) = true := by
  induction columns with
  | nil => simp [findCardOfSubtask] at h
  | cons col rest ih =>
    rw [findCardOfSubtask, findSome?_cons_eq] at h
    cases hfind : col.cards.find? (fun c => c.subtasks.any (fun s => s.id == sid)) with
    | some c =>
      rw [hfind] at h
      injection h with h'
      subst h'
      have hp := List.find?_some hfind
      simpa using hp
    | none =>
      rw [hfind] at h
      exact ih h

/-! ## Claim theorems -/

/-- C10: every successful `createBoard` call also creates exactly three
default columns for the new board, titled 'To Do', 'In Progress' and 'Done',
at positions 0, 1 and 2 respectively. -/
theorem createBoard_three_default_columns (newBoardId : String) :
    (createBoardDefaultColumns newBoardId).length = 3 ∧
    (createBoardDefaultColumns newBoardId).map (fun r => (r.title, r.position))
      = [("To Do", 0), ("In Progress", 1), ("Done", 2)] ∧
    (createBoardDefaultColumns newBoardId).all
      (fun r => r.board_id == newBoardId) = true := by
  refine ⟨rfl, rfl, ?_⟩
  simp [createBoardDefaultColumns]

/-- C9: `addColumn` assigns the new column position max+1 over existing
columns (0 when there are none), and `addCard` assigns the new card
position max+1 over the target column's cards (0 when it is empty). -/
theorem new_items_appended_at_end (columns : List ColumnWithCards)
    (columnId : String) :
    (columns = [] → addColumnPosition columns = 0) ∧
    (∀ m, IsMaxOf m (columns.map (fun c => c.column.position)) →
        addColumnPosition columns = m + 1) ∧
    (∀ col, columns.find? (fun c => c.column.id == columnId) = some col →
      (col.cards = [] → addCardPosition columns columnId = 0) ∧
      ∀ mc, IsMaxOf mc (col.cards.map (fun c => c.card.position)) →
        addCardPosition columns columnId = mc + 1) := by
  refine ⟨?_, ?_, ?_⟩
  · intro h
    subst h
    rfl
  · intro m hm
    have hne : columns ≠ [] := by
      intro h
      subst h
      exact absurd hm.1 (List.not_mem_nil m)
    have hlen : columns.length > 0 := List.length_pos.mpr hne
    rw [addColumnPosition]
    rw [if_pos hlen, jsMax_eq_of_isMax hm]
  · intro col hfind
    constructor
    · intro hnil
      rw [addCardPosition, hfind]
      simp [hnil]
    · intro mc hm
      have hne : col.cards ≠ [] := by
        intro h
        rw [h] at hm
        exact absurd hm.1 (List.not_mem_nil mc)
      have hlen : col.cards.length > 0 := List.length_pos.mpr hne
      rw [addCardPosition, hfind]
      simp only [if_pos hlen, jsMax_eq_of_isMax hm]

def c9card : CardWithLabels :=
  { card := { id := "k1", column_id := "col1", title := "K", description := none,
              position := 7, due_date := none, priority := Priority.low,
              assigned_to := none },
    labels := [], subtasks := [], attachments := [], comments := [],
    activities := [] }

def c9col : ColumnWithCards :=
  { column := { id := "col1", board_id := "b", title := "T", position := 4,
                wip_limit := none },
    cards := [c9card] }

def c9colEmpty : ColumnWithCards :=
  { column := { id := "colE", board_id := "b", title := "E", position := 0,
                wip_limit := none },
    cards := [] }

theorem new_items_appended_at_end_witness :
    addColumnPosition ([] : List ColumnWithCards) = 0 ∧
    addColumnPosition [c9col] = 4 + 1 ∧
    addCardPosition [c9col] "col1" = 7 + 1 ∧
    addCardPosition [c9colEmpty] "colE" = 0 := by
  have h0 := new_items_appended_at_end ([] : List ColumnWithCards) "col1"
  have h := new_items_appended_at_end [c9col] "col1"
  have he := new_items_appended_at_end [c9colEmpty] "colE"
  exact ⟨h0.1 rfl,
    h.2.1 4 ⟨by decide, by decide⟩,
    (h.2.2 c9col (by decide)).2 7 ⟨by decide, by decide⟩,
    (he.2.2 c9colEmpty (by decide)).1 rfl⟩

/-- C7: in the view model produced by `fetchBoard`, columns appear in
ascending position order and the cards in each column appear in ascending
position order (the DB returns both relations ordered by `position`, the
hypotheses below). -/
theorem fetchBoard_view_ordered (cols : List Column) (cards : List Card)
    (subs : List Subtask) (labs : List Label) (cls : List CardLabel)
    (atts : List Attachment) (comms : List Comment) (acts : List Activity)
    (hcols : cols.Pairwise (fun a b => a.position ≤ b.position))
    (hcards : cards.Pairwise (fun a b => a.position ≤ b.position)) :
    (columnsWithCards cols cards subs labs cls atts comms acts).Pairwise
      (fun a b => a.column.position ≤ b.column.position) ∧
    ∀ cw ∈ columnsWithCards cols cards subs labs cls atts comms acts,
      cw.cards.Pairwise (fun a b => a.card.position ≤ b.card.position) := by
  constructor
  · rw [columnsWithCards, List.pairwise_map]
    exact hcols
  · intro cw hcw
    rw [columnsWithCards, List.mem_map] at hcw
    obtain ⟨col, _, rfl⟩ := hcw
    rw [enrichColumn_cards, List.pairwise_map]
    exact hcards.filter _

def c7colA : Column :=
  { id := "a", board_id := "b", title := "A", position := 0, wip_limit := none }

def c7colB : Column :=
  { id := "bb", board_id := "b", title := "B", position := 1, wip_limit := none }

theorem fetchBoard_view_ordered_witness :
    (columnsWithCards [c7colA, c7colB] [] [] [] [] [] [] []).Pairwise
      (fun a b => a.column.position ≤ b.column.position) :=
  (fetchBoard_view_ordered [c7colA, c7colB] [] [] [] [] [] [] []
    (by simp [c7colA, c7colB, List.pairwise_cons]) (by simp)).1

/-- C8: board filtering is conservative — the default filter state returns
the input columns unchanged, and for every filter state the columns and
their order are preserved while each column's filtered cards are a
subsequence of its original cards, namely exactly those satisfying the
conjunction of the search, label, priority and date clauses. -/
theorem filteredColumns_conservative (parseDay : String → Int) (today : Int)
    (fs : FilterState) (columns : List ColumnWithCards) :
    filteredColumns parseDay today DEFAULT_FILTER_STATE columns = columns ∧
    List.Forall₂ (fun orig res =>
        res.column = orig.column ∧ List.Sublist res.cards orig.cards ∧
        ∀ e, e ∈ res.cards ↔ e ∈ orig.cards ∧ searchPred fs e = true ∧
          labelPred fs e = true ∧ prioPred fs e = true ∧
          datePred parseDay today fs e = true)
      columns (filteredColumns parseDay today fs columns) := by
  constructor
  · rfl
  · rw [filteredColumns]
    by_cases hdef : (fs.searchQuery == "" && fs.labels.isEmpty
        && fs.priorities.isEmpty && fs.dateFilter == DateFilter.all) = true
    · rw [if_pos hdef]
      simp only [Bool.and_eq_true, beq_iff_eq, List.isEmpty_iff] at hdef
      obtain ⟨⟨⟨hq, hl⟩, hp⟩, hd⟩ := hdef
      refine List.forall₂_same.mpr ?_
      intro x _
      refine ⟨rfl, List.Sublist.refl _, ?_⟩
      intro e
      constructor
      · intro he
        refine ⟨he, ?_, ?_, ?_, ?_⟩
        · simp [searchPred, hq]
        · simp [labelPred, hl]
        · simp [prioPred, hp]
        · simp [datePred, hd]
      · exact fun he => he.1
    · rw [if_neg hdef]
      refine List.forall₂_map_right_iff.mpr (List.forall₂_same.mpr ?_)
      intro x _
      refine ⟨rfl, List.filter_sublist _, ?_⟩
      intro e
      simp [List.mem_filter, matchesFilter, Bool.and_eq_true, and_assoc]

/-- C3 counterexample: `updateColumn` succeeds without triggering any
refetch (no `fetchBoard` call occurs on its success path). -/
theorem updateColumn_no_refetch :
    (runOp BoardOp.updateColumn none).refetch = false := rfl

/-- C3 amended: of the mutating operations, only addColumn, moveCard,
addComment, deleteComment, uploadAttachment and toggleSubtask invoke a
refetch on success; updateColumn, deleteColumn, addCard, updateCard,
deleteCard, reorderColumns, deleteAttachment and assignCard do not (the UI
relies on the real-time change subscription for those). -/
theorem refetch_on_success_partial :
    (runOp BoardOp.addColumn none).refetch = true ∧
    (runOp BoardOp.moveCard none).refetch = true ∧
    (runOp BoardOp.addComment none).refetch = true ∧
    (runOp BoardOp.deleteComment none).refetch = true ∧
    (runOp BoardOp.uploadAttachment none).refetch = true ∧
    (runOp BoardOp.toggleSubtask none).refetch = true ∧
    (runOp BoardOp.updateColumn none).refetch = false ∧
    (runOp BoardOp.deleteColumn none).refetch = false ∧
    (runOp BoardOp.addCard none).refetch = false ∧
    (runOp BoardOp.updateCard none).refetch = false ∧
    (runOp BoardOp.deleteCard none).refetch = false ∧
    (runOp BoardOp.reorderColumns none).refetch = false ∧
    (runOp BoardOp.deleteAttachment none).refetch = false ∧
    (runOp BoardOp.assignCard none).refetch = false ∧
    ∀ (cols : List ColumnWithCards) (cards : List Card) (subs : List Subtask)
      (sid : String) (b : Bool),
      (toggleSubtask cols cards subs sid b).refetched = true := by
  refine ⟨rfl, rfl, rfl, rfl, rfl, rfl, rfl, rfl, rfl, rfl, rfl, rfl, rfl, rfl, ?_⟩
  intro cols cards subs sid b
  rfl

/-- C5 counterexample: `addComment` re-throws the service error after
setting the error state and logging, contradicting "no operation
re-throws". -/
theorem addComment_rethrows :
    (runOp BoardOp.addComment (some "boom")).threw = true := rfl

/-- C5 amended: every data operation catches service errors, stores the
message in the error state and logs to the console; all operations except
addComment and deleteComment do not re-throw and return a failure value
(null, false, or an empty result object); addComment and deleteComment
re-throw after storing and logging. -/
theorem error_handling_per_op (op : BoardOp) (m : String) :
    (runOp op (some m)).errorMsg = some m ∧
    (runOp op (some m)).consoleLogged = true ∧
    ((runOp op (some m)).threw = true ↔
      op = BoardOp.addComment ∨ op = BoardOp.deleteComment) ∧
    ((runOp op (some m)).threw = false →
      (runOp op (some m)).ret = RetVal.rnull ∨
      (runOp op (some m)).ret = RetVal.rfalse ∨
      (runOp op (some m)).ret = RetVal.robj) := by
  cases op <;>
    simp [runOp, addColumnOp, updateColumnOp, deleteColumnOp, addCardOp,
      updateCardOp, deleteCardOp, moveCardOp, reorderColumnsOp, addCommentOp,
      deleteCommentOp, uploadAttachmentOp, deleteAttachmentOp, toggleSubtaskOp,
      assignCardOp]

theorem error_handling_per_op_witness :
    (runOp BoardOp.updateColumn (some "x")).ret = RetVal.rnull ∨
    (runOp BoardOp.updateColumn (some "x")).ret = RetVal.rfalse ∨
    (runOp BoardOp.updateColumn (some "x")).ret = RetVal.robj :=
  (error_handling_per_op BoardOp.updateColumn "x").2.2.2 rfl

def c4card1 : Card :=
  { id := "c1", column_id := "colT", title := "A", description := none,
    position := 0, due_date := none, priority := Priority.medium,
    assigned_to := none }

def c4card2 : Card :=
  { id := "c2", column_id := "colU", title := "B", description := none,
    position := 0, due_date := none, priority := Priority.medium,
    assigned_to := none }

def c4demoCards : List Card := [c4card1, c4card2]

def c4demoColumn : ColumnWithCards :=
  { column := { id := "colT", board_id := "b", title := "Work", position := 0,
                wip_limit := some 1 },
    cards := [{ card := c4card1, labels := [], subtasks := [],
                attachments := [], comments := [], activities := [] }] }

/-- C4 counterexample: `moveCard` performs no WIP check — moving card `c2`
into column `colT`, which has `wip_limit = 1` and already holds one card,
succeeds and leaves the column with two cards, exceeding its limit. -/
theorem moveCard_exceeds_wip :
    c4demoColumn.column.wip_limit = some 1 ∧
    c4demoCards.countP (fun c => c.column_id == "colT") = 1 ∧
    (moveCard c4demoCards "c2" "colT" 0).countP
      (fun c => c.column_id == "colT") = 2 := by
  refine ⟨rfl, ?_, ?_⟩ <;> decide

/-- C4 amended: when a column with a non-null WIP limit is at or over its
limit the add-card button is disabled, but `moveCard` performs no WIP
check, so moving a card into a full column can exceed the limit. -/
theorem wip_limit_ui_only (cw : ColumnWithCards) (l : Int)
    (hl : cw.column.wip_limit = some l)
    (hfull : (cw.cards.length : Int) ≥ l) :
    addCardButtonDisabled cw = true ∧
    (moveCard c4demoCards "c2" "colT" 0).countP
      (fun c => c.column_id == "colT") = 2 := by
  constructor
  · simp only [addCardButtonDisabled, hl, isOverLimit]
    exact decide_eq_true hfull
  · decide

theorem wip_limit_ui_only_witness :
    addCardButtonDisabled c4demoColumn = true :=
  (wip_limit_ui_only c4demoColumn 1 rfl (by decide)).1

lemma toggleSubtaskCore_frame (columns : List ColumnWithCards)
    (dbCards : List Card) (subtaskId : String) (isCompleted : Bool)
    (h : isCompleted = false ∨
      (∀ card, findCardOfSubtask columns subtaskId = some card →
        ∃ s ∈ card.subtasks, s.id ≠ subtaskId ∧ s.is_completed = false) ∨
      findDoneColumn columns = none ∨
      (∀ card dc cc, findCardOfSubtask columns subtaskId = some card →
        findDoneColumn columns = some dc →
        findCurrentColumn columns card.card.id = some cc →
        cc.column.id = dc.column.id)) :
    toggleSubtaskCore columns dbCards subtaskId isCompleted = (dbCards, none) := by
  cases isCompleted with
  | false => rfl
  | true =>
    rw [toggleSubtaskCore, if_pos rfl]
    cases hfind : findCardOfSubtask columns subtaskId with
    | none => rfl
    | some card =>
      rcases h with h1 | h2 | h3 | h4
      · exact absurd h1 (by simp)
      · obtain ⟨s, hs, hsid, hscomp⟩ := h2 card hfind
        have hall : ((card.subtasks.filter (fun s => !(s.id == subtaskId))).all
            (fun s => s.is_completed)) = false := by
          rw [Bool.eq_false_iff]
          intro hcontra
          rw [List.all_eq_true] at hcontra
          have hsf : s ∈ card.subtasks.filter (fun s => !(s.id == subtaskId)) :=
            List.mem_filter.mpr ⟨hs, by simp [hsid]⟩
          have := hcontra s hsf
          rw [hscomp] at this
          exact Bool.false_ne_true this
        simp [hall]
      · simp [h3]
      · cases hdone : findDoneColumn columns with
        | none => simp [hdone]
        | some dc =>
          cases hcur : findCurrentColumn columns card.card.id with
          | none => simp [hdone, hcur]
          | some cc =>
            have heq : cc.column.id = dc.column.id := h4 card dc cc hfind hdone hcur
            simp [hdone, hcur, heq]

/-- C2: when the subtask is being marked incomplete, or some sibling subtask
of the owning card is still incomplete, or no column title matches the done
heuristic, or the owning card already sits in the heuristic's matching
column, `toggleSubtask` leaves every card's column membership and position
unchanged and returns no automation message. -/
theorem toggleSubtask_frame (columns : List ColumnWithCards)
    (dbCards : List Card) (dbSubtasks : List Subtask) (subtaskId : String)
    (isCompleted : Bool)
    (h : isCompleted = false ∨
      (∀ card, findCardOfSubtask columns subtaskId = some card →
        ∃ s ∈ card.subtasks, s.id ≠ subtaskId ∧ s.is_completed = false) ∨
      findDoneColumn columns = none ∨
      (∀ card dc cc, findCardOfSubtask columns subtaskId = some card →
        findDoneColumn columns = some dc →
        findCurrentColumn columns card.card.id = some cc →
        cc.column.id = dc.column.id)) :
    (toggleSubtask columns dbCards dbSubtasks subtaskId isCompleted).cards
        = dbCards ∧
    (toggleSubtask columns dbCards dbSubtasks subtaskId
        isCompleted).automationMessage = none := by
  have hc := toggleSubtaskCore_frame columns dbCards subtaskId isCompleted h
  constructor
  · show (toggleSubtaskCore columns dbCards subtaskId isCompleted).1 = dbCards
    rw [hc]
  · show (toggleSubtaskCore columns dbCards subtaskId isCompleted).2 = none
    rw [hc]

theorem toggleSubtask_frame_witness :
    (toggleSubtask [] [] [] "s1" false).cards = [] ∧
    (toggleSubtask [] [] [] "s1" false).automationMessage = none :=
  toggleSubtask_frame [] [] [] "s1" false (Or.inl rfl)

def c1subtask : Subtask :=
  { id := "s1", card_id := "c1", title := "T1", is_completed := false,
    position := 0 }

def c1card : Card :=
  { id := "c1", column_id := "colA", title := "Card 1", description := none,
    position := 0, due_date := none, priority := Priority.medium,
    assigned_to := none }

def c1cardW : CardWithLabels :=
  { card := c1card, labels := [], subtasks := [c1subtask], attachments := [],
    comments := [], activities := [] }

def c1colA : ColumnWithCards :=
  { column := { id := "colA", board_id := "b1", title := "Done", position := 0,
                wip_limit := none },
    cards := [c1cardW] }

def c1colB : ColumnWithCards :=
  { column := { id := "colB", board_id := "b1", title := "Tamamlandı",
                position := 1, wip_limit := none },
    cards := [] }

def c1columns : List ColumnWithCards := [c1colA, c1colB]

/-- C1 counterexample: completing the only subtask of a card whose column is
titled "Done", while a different column titled "Tamamlandı" also matches the
heuristic.  All premises of the claim hold — isCompleted is true, every
other sibling is complete, and there EXISTS a heuristic-matching column
(colB) different from the card's column — yet no automation message is
returned and the card does not move, because the code uses the FIRST
heuristic match, which is the card's own column. -/
theorem toggleSubtask_exists_done_insufficient :
    isDoneTitle c1colB.column.title = true ∧
    c1colB.column.id ≠ c1colA.column.id ∧
    findCardOfSubtask c1columns "s1" = some c1cardW ∧
    findCurrentColumn c1columns "c1" = some c1colA ∧
    (c1cardW.subtasks.filter (fun s => !(s.id == "s1"))).all
      (fun s => s.is_completed) = true ∧
    (toggleSubtask c1columns [c1card] [c1subtask] "s1" true).automationMessage
      = none ∧
    (toggleSubtask c1columns [c1card] [c1subtask] "s1" true).cards
      = [c1card] := by
  refine ⟨?_, ?_, ?_, ?_, ?_, ?_, ?_⟩ <;> decide

/-- C1 amended: when `toggleSubtask` completes a subtask of a locally known
card, every other subtask of that card is already complete, and the FIRST
column matching the done heuristic differs from the card's current column,
the card row is updated to that column at position 0 (a single `moveCard`),
an automation message is returned, and the UI handler fires the celebratory
confetti and success toast. -/
theorem toggleSubtask_automation (columns : List ColumnWithCards)
    (dbCards : List Card) (dbSubtasks : List Subtask) (subtaskId : String)
    (card : CardWithLabels) (dc cc : ColumnWithCards)
    (hfind : findCardOfSubtask columns subtaskId = some card)
    (hall : ∀ s ∈ card.subtasks, s.id ≠ subtaskId → s.is_completed = true)
    (hdone : findDoneColumn columns = some dc)
    (hcur : findCurrentColumn columns card.card.id = some cc)
    (hne : dc.column.id ≠ cc.column.id) :
    (toggleSubtask columns dbCards dbSubtasks subtaskId true).cards
        = moveCard dbCards card.card.id dc.column.id 0 ∧
    (∀ c ∈ (toggleSubtask columns dbCards dbSubtasks subtaskId true).cards,
      c.id = card.card.id → c.column_id = dc.column.id ∧ c.position = 0) ∧
    celebrates (toggleSubtask columns dbCards dbSubtasks subtaskId true)
      = true := by
  have hlen : card.subtasks.length > 0 := by
    have hany := findCardOfSubtask_any columns subtaskId card hfind
    rw [List.any_eq_true] at hany
    obtain ⟨s, hs, _⟩ := hany
    exact List.length_pos.mpr (List.ne_nil_of_mem hs)
  have hallb : ((card.subtasks.filter (fun s => !(s.id == subtaskId))).all
      (fun s => s.is_completed)) = true := by
    rw [List.all_eq_true]
    intro s hsf
    obtain ⟨hs, hneq⟩ := List.mem_filter.mp hsf
    exact hall s hs (by simpa using hneq)
  have hbne : (dc.column.id == cc.column.id) = false := by
    simpa using hne
  have hcore : toggleSubtaskCore columns dbCards subtaskId true
      = (moveCard dbCards card.card.id dc.column.id 0,
         some ("Tüm görevler bitti! Kart \"" ++ dc.column.title
           ++ "\" sütununa taşındı. 🚀")) := by
    rw [toggleSubtaskCore, if_pos rfl, hfind]
    simp only [if_pos hlen, hallb, if_true, hdone, hcur, hbne,
      Bool.not_false, if_pos]
  have hcards : (toggleSubtask columns dbCards dbSubtasks subtaskId true).cards
      = moveCard dbCards card.card.id dc.column.id 0 := by
    show (toggleSubtaskCore columns dbCards subtaskId true).1 = _
    rw [hcore]
  have hmsg : (toggleSubtask columns dbCards dbSubtasks subtaskId
      true).automationMessage
      = some ("Tüm görevler bitti! Kart \"" ++ dc.column.title
          ++ "\" sütununa taşındı. 🚀") := by
    show (toggleSubtaskCore columns dbCards subtaskId true).2 = _
    rw [hcore]
  refine ⟨hcards, ?_, ?_⟩
  · intro c hc hid
    rw [hcards, moveCard, List.mem_map] at hc
    obtain ⟨a, _, rfl⟩ := hc
    by_cases hmatch : (a.id == card.card.id) = true
    · rw [if_pos hmatch]
      exact ⟨rfl, rfl⟩
    · rw [if_neg (by simpa using hmatch)] at hid ⊢
      exact absurd hid (by simpa using hmatch)
  · have hne2 : ("Tüm görevler bitti! Kart \"" ++ dc.column.title
        ++ "\" sütununa taşındı. 🚀") ≠ "" := by
      intro hM
      have hlenM := congrArg String.length hM
      rw [String.length_append, String.length_append] at hlenM
      have h1 : (0 : Nat) < ("Tüm görevler bitti! Kart \"" : String).length := by
        decide
      have h0 : ("" : String).length = 0 := rfl
      omega
    rw [celebrates, hmsg]
    simpa using hne2

def c1wSubtask : Subtask :=
  { id := "s2", card_id := "c2", title := "T", is_completed := false,
    position := 0 }

def c1wCard : Card :=
  { id := "c2", column_id := "colT", title := "Card 2", description := none,
    position := 0, due_date := none, priority := Priority.medium,
    assigned_to := none }

def c1wCardW : CardWithLabels :=
  { card := c1wCard, labels := [], subtasks := [c1wSubtask], attachments := [],
    comments := [], activities := [] }

def c1wColT : ColumnWithCards :=
  { column := { id := "colT", board_id := "b1", title := "Todo", position := 0,
                wip_limit := none },
    cards := [c1wCardW] }

def c1wColD : ColumnWithCards :=
  { column := { id := "colD", board_id := "b1", title := "Done", position := 1,
                wip_limit := none },
    cards := [] }

def c1wColumns : List ColumnWithCards := [c1wColT, c1wColD]

theorem toggleSubtask_automation_witness :
    (toggleSubtask c1wColumns [c1wCard] [c1wSubtask] "s2" true).cards
        = moveCard [c1wCard] c1wCardW.card.id c1wColD.column.id 0 ∧
    (∀ c ∈ (toggleSubtask c1wColumns [c1wCard] [c1wSubtask] "s2" true).cards,
      c.id = c1wCardW.card.id →
        c.column_id = c1wColD.column.id ∧ c.position = 0) ∧
    celebrates (toggleSubtask c1wColumns [c1wCard] [c1wSubtask] "s2" true)
      = true :=
  toggleSubtask_automation c1wColumns [c1wCard] [c1wSubtask] "s2" c1wCardW
    c1wColD c1wColT (by decide) (by decide) (by decide) (by decide) (by decide)

/-- C6: `fetchBoard` denormalizes correctly.  Under the guarantees of the DB
queries — column ids are unique, card ids are unique, and every fetched card
references a fetched column (cards are queried by `column_id in columnIds`)
— every fetched card appears in the view model only under the column whose
id equals its `column_id`, appears exactly once in total, and carries
exactly the subtasks/attachments/comments/activities with its `card_id` and
exactly the labels joined through card-label rows. -/
theorem fetchBoard_denormalizes
    (cols : List Column) (cards : List Card) (subs : List Subtask)
    (labs : List Label) (cls : List CardLabel) (atts : List Attachment)
    (comms : List Comment) (acts : List Activity)
    (hcolids : cols.Pairwise (fun a b => a.id ≠ b.id))
    (hcardids : cards.Pairwise (fun a b => a.id ≠ b.id))
    (hmem : ∀ c ∈ cards, ∃ col ∈ cols, col.id = c.column_id) :
    (∀ cw ∈ columnsWithCards cols cards subs labs cls atts comms acts,
      ∀ e ∈ cw.cards, e.card ∈ cards ∧ e.card.column_id = cw.column.id) ∧
    (∀ c ∈ cards,
      ((columnsWithCards cols cards subs labs cls atts comms acts).map
        (fun cw => cw.cards.countP (fun e => e.card.id == c.id))).sum = 1) ∧
    (∀ cw ∈ columnsWithCards cols cards subs labs cls atts comms acts,
      ∀ e ∈ cw.cards,
      e.subtasks = subs.filter (fun s => s.card_id == e.card.id) ∧
      e.attachments = atts.filter (fun a => a.card_id == e.card.id) ∧
      e.comments = comms.filter (fun c2 => c2.card_id == e.card.id) ∧
      e.activities = acts.filter (fun a => a.card_id == some e.card.id) ∧
      ∀ l, l ∈ e.labels ↔ l ∈ labs ∧
        ∃ cl ∈ cls, cl.card_id = e.card.id ∧ cl.label_id = l.id) := by
  refine ⟨?_, ?_, ?_⟩
  · intro cw hcw e he
    rw [columnsWithCards, List.mem_map] at hcw
    obtain ⟨col, _, rfl⟩ := hcw
    rw [enrichColumn_cards, List.mem_map] at he
    obtain ⟨c', hc', rfl⟩ := he
    obtain ⟨hcmem, hcid⟩ := List.mem_filter.mp hc'
    exact ⟨hcmem, by simpa using hcid⟩
  · intro c hc
    obtain ⟨col0, hcol0, hid0⟩ := hmem c hc
    have hinner : ∀ col : Column,
        ((cards.filter (fun card => card.column_id == col.id)).map
          (enrichCard subs labs cls atts comms acts)).countP
          (fun e => e.card.id == c.id)
        = cards.countP (fun a => (a.id == c.id) && (a.column_id == col.id)) := by
      intro col
      rw [List.countP_map, List.countP_filter]
      rfl
    have hfun : ((fun cw : ColumnWithCards =>
          cw.cards.countP (fun e => e.card.id == c.id))
          ∘ enrichColumn cards subs labs cls atts comms acts)
        = fun col => if (c.column_id == col.id) then 1 else 0 := by
      funext col
      show ((enrichColumn cards subs labs cls atts comms acts col).cards).countP
          (fun e => e.card.id == c.id) = _
      rw [enrichColumn_cards, hinner col,
        countP_keyOrient cards (fun a => a.id)
          (fun a => a.column_id == col.id) hcardids c hc]
    rw [columnsWithCards, List.map_map, hfun, sum_map_indicator]
    have hone := countP_valOrient cols (fun col => col.id) hcolids col0 hcol0
    have hone2 : cols.countP (fun y => c.column_id == y.id) = 1 := by
      rw [← hid0]
      exact hone
    exact hone2
  · intro cw hcw e he
    rw [columnsWithCards, List.mem_map] at hcw
    obtain ⟨col, _, rfl⟩ := hcw
    rw [enrichColumn_cards, List.mem_map] at he
    obtain ⟨c', _, rfl⟩ := he
    refine ⟨rfl, rfl, rfl, rfl, ?_⟩
    intro l
    show l ∈ labs.filter (fun l =>
        ((cls.filter (fun cl => cl.card_id == c'.id)).map
          (fun cl => cl.label_id)).contains l.id) ↔ _
    rw [List.mem_filter]
    constructor
    · rintro ⟨hl, hcont⟩
      refine ⟨hl, ?_⟩
      rw [List.elem_iff, List.mem_map] at hcont
      obtain ⟨cl, hclf, hcll⟩ := hcont
      obtain ⟨hcl, hclc⟩ := List.mem_filter.mp hclf
      exact ⟨cl, hcl, by simpa using hclc, hcll⟩
    · rintro ⟨hl, cl, hcl, hclc, hcll⟩
      refine ⟨hl, ?_⟩
      rw [List.elem_iff, List.mem_map]
      exact ⟨cl, List.mem_filter.mpr ⟨hcl, by simpa using hclc⟩, hcll⟩

theorem createBoard_three_default_columns_witness :
    (createBoardDefaultColumns "b1").length = 3 :=
  (createBoard_three_default_columns "b1").1

theorem refetch_on_success_partial_witness :
    (runOp BoardOp.addColumn none).refetch = true :=
  refetch_on_success_partial.1

theorem filteredColumns_conservative_witness :
    filteredColumns (fun _ => 0) 0 DEFAULT_FILTER_STATE [] = [] :=
  (filteredColumns_conservative (fun _ => 0) 0 DEFAULT_FILTER_STATE []).1

def c6col : Column :=
  { id := "col1", board_id := "b", title := "A", position := 0,
    wip_limit := none }

def c6card : Card :=
  { id := "x1", column_id := "col1", title := "X", description := none,
    position := 0, due_date := none, priority := Priority.low,
    assigned_to := none }

theorem fetchBoard_denormalizes_witness :
    ((columnsWithCards [c6col] [c6card] [] [] [] [] [] []).map
      (fun cw => cw.cards.countP (fun e => e.card.id == c6card.id))).sum = 1 :=
  (fetchBoard_denormalizes [c6col] [c6card] [] [] [] [] [] []
    (by simp) (by simp) (by decide)).2.1 c6card (by decide)

end Kanban
